import Mathlib

/-!
Verification of the blink-controller core of `Test1_main.c`.

The `main` loop of the C program maintains three mutable variables:
`char button` (the input latch), `int t` (elapsed milliseconds in the
current cycle), and the output latch bit `LATGbits.LATG11`.  Once per
1 ms timer tick the loop body runs once and then idles.  We embed the
loop body as a pure step function `tick` on a record `S`, driven by the
per-tick reading of the input line `PORTDbits.RD6` (a `Bool`:
`true` means the line reads 1, i.e. not pressed; `false` means the line
reads 0, i.e. pressed — the input uses inverted logic).
-/

set_option maxRecDepth 40000

namespace Blink

/-- The mutable state of the control loop: `button` is the input latch
(`char button`), `t` the millisecond counter (`int t`), `out` the output
line latch bit (`LATGbits.LATG11`). -/
structure S where
  button : Bool
  t : Int
  out : Bool
deriving DecidableEq

/-- Initial state: `button = 0`, `t = 0`, and `LATGbits.LATG11 = 0`
(the port is cleared and D2 is explicitly turned off before the loop). -/
def init : S := ⟨false, 0, false⟩

/-- The input-latch phase of the loop body:
`if ((button == 0) && (RD6 == 1)) \x7b\x7d
 else if ((button == 0) && (RD6 == 0)) \x7b button = 1; \x7d`. -/
def latch (s : S) (rd6 : Bool) : S :=
  if s.button = false ∧ rd6 = true then s
  else if s.button = false ∧ rd6 = false then { s with button := true }
  else s

/-- The blink phase of the loop body, `if (button == 1) \x7b ... \x7d`:
four-way branch on `t`. -/
def blink (s : S) : S :=
  if s.button = true then
    if s.t = 0 then { s with out := true, t := s.t + 1 }
    else if 0 < s.t ∧ s.t < 1000 then { s with t := s.t + 1 }
    else if 1000 ≤ s.t ∧ s.t < 3000 then { s with out := false, t := s.t + 1 }
    else { s with t := 0, out := false }
  else s

/-- One iteration of the `while (1)` loop body, given the current reading
`rd6` of `PORTDbits.RD6`: the latch phase runs first, and the blink phase
sees the value of `button` already updated in the same iteration. -/
def tick (s : S) (rd6 : Bool) : S := blink (latch s rd6)

/-- State after `n` ticks, ticks numbered from 1: tick `n+1` consumes the
input-line reading `inp (n+1)`. -/
def run (inp : Nat → Bool) : Nat → S
  | 0 => init
  | n + 1 => tick (run inp n) (inp (n + 1))

/-- Input stream with the line always reading 0 (pressed from tick 1). -/
def press : Nat → Bool := fun _ => false

/-- State after `n` ticks when the line is pressed from the first tick:
the run arms at tick 1 with `t = 0`, so tick `n` here is the `n`-th
armed evaluation. -/
def runP : Nat → S := run press

/-- Scenario input stream: the line reads 1 (unasserted) for ticks 1-50
and 0 (asserted/pressed) from tick 51 on. -/
def scen : Nat → Bool := fun n => decide (n ≤ 50)

/-- The pure function of (InputLatch, ElapsedMillis) that the transition
table of section 4.2 induces on the state observed at a loop boundary:
the output is on exactly when armed with `1 ≤ t ≤ 1000`. -/
def outOf (b : Bool) (t : Int) : Bool := b && decide (1 ≤ t ∧ t ≤ 1000)

/-- Reachability invariant of the loop: the counter stays in `[0, 3000]`,
an unarmed state is exactly the initial one, and the output is the pure
function `outOf` of the latch and the counter. -/
def Inv (s : S) : Prop :=
  0 ≤ s.t ∧ s.t ≤ 3000 ∧ (s.button = false → s.t = 0 ∧ s.out = false) ∧
    s.out = outOf s.button s.t

theorem run_zero (inp : Nat → Bool) : run inp 0 = init := rfl

theorem run_succ (inp : Nat → Bool) (n : Nat) :
    run inp (n + 1) = tick (run inp n) (inp (n + 1)) := rfl

theorem runP_succ (n : Nat) : runP (n + 1) = tick (runP n) false := rfl

theorem latch_armed (s : S) (h : s.button = true) (i : Bool) : latch s i = s := by
  simp [latch, h]

theorem latch_unarmed_high (s : S) (h : s.button = false) : latch s true = s := by
  simp [latch, h]

theorem latch_unarmed_low (s : S) (h : s.button = false) :
    latch s false = { s with button := true } := by
  simp [latch, h]

theorem blink_unarmed (s : S) (h : s.button = false) : blink s = s := by
  simp [blink, h]

theorem tick_armed (s : S) (h : s.button = true) (i : Bool) : tick s i = blink s := by
  rw [tick, latch_armed s h]

theorem tick_unarmed_high (s : S) (h : s.button = false) : tick s true = s := by
  rw [tick, latch_unarmed_high s h, blink_unarmed s h]

theorem blink_t0 (t : Int) (o : Bool) (h : t = 0) :
    blink ⟨true, t, o⟩ = ⟨true, 1, true⟩ := by
  subst h; simp [blink]

theorem blink_on (t : Int) (o : Bool) (h1 : 0 < t) (h2 : t < 1000) :
    blink ⟨true, t, o⟩ = ⟨true, t + 1, o⟩ := by
  have h0 : ¬ (t = 0) := by omega
  simp [blink, h0, h1, h2]

theorem blink_off (t : Int) (o : Bool) (h1 : 1000 ≤ t) (h2 : t < 3000) :
    blink ⟨true, t, o⟩ = ⟨true, t + 1, false⟩ := by
  have h0 : ¬ (t = 0) := by omega
  have hn : ¬ (0 < t ∧ t < 1000) := by omega
  simp [blink, h0, hn, h1, h2]

theorem blink_reset (t : Int) (o : Bool) (h : 3000 ≤ t) :
    blink ⟨true, t, o⟩ = ⟨true, 0, false⟩ := by
  have h0 : ¬ (t = 0) := by omega
  have hn1 : ¬ (0 < t ∧ t < 1000) := by omega
  have hn2 : ¬ (1000 ≤ t ∧ t < 3000) := by omega
  simp [blink, h0, hn1, hn2]

theorem blink_button (s : S) : (blink s).button = s.button := by
  unfold blink
  repeat' split
  all_goals rfl

theorem latch_button (s : S) (i : Bool) : (latch s i).button = (s.button || !i) := by
  cases hb : s.button <;> cases i <;> simp [latch, hb]

theorem tick_button (s : S) (i : Bool) : (tick s i).button = (s.button || !i) := by
  rw [tick, blink_button, latch_button]

theorem tick_armed_input_irrelevant (s : S) (h : s.button = true) (i j : Bool) :
    tick s i = tick s j := by
  rw [tick_armed s h, tick_armed s h]

theorem inv_init : Inv init :=
  ⟨le_refl 0, show (0 : Int) ≤ 3000 by norm_num, fun _ => ⟨rfl, rfl⟩,
    show false = outOf false 0 by simp [outOf]⟩

theorem inv_tick (s : S) (i : Bool) (h : Inv s) : Inv (tick s i) := by
  obtain ⟨b, t, o⟩ := s
  obtain ⟨ht0, ht3, hun, hout⟩ := h
  cases b with
  | false =>
    obtain ⟨ht, ho⟩ := hun rfl
    simp only at ht ho
    subst ht; subst ho
    cases i with
    | true =>
      rw [tick_unarmed_high _ rfl]
      exact inv_init
    | false =>
      have hstep : tick (⟨false, 0, false⟩ : S) false = ⟨true, 1, true⟩ := rfl
      rw [hstep]
      refine ⟨show (0 : Int) ≤ 1 by norm_num, show (1 : Int) ≤ 3000 by norm_num,
        fun hc => by simp at hc, ?_⟩
      show true = outOf true 1
      simp [outOf]
  | true =>
    rw [tick_armed _ rfl i]
    simp only at ht0 ht3 hun hout
    by_cases h0 : t = 0
    · rw [blink_t0 t o h0]
      refine ⟨show (0 : Int) ≤ 1 by norm_num, show (1 : Int) ≤ 3000 by norm_num,
        fun hc => by simp at hc, ?_⟩
      show true = outOf true 1
      simp [outOf]
    · by_cases hlt : t < 1000
      · have h1 : 0 < t := by omega
        rw [blink_on t o h1 hlt]
        refine ⟨show (0 : Int) ≤ t + 1 by omega, show t + 1 ≤ 3000 by omega,
          fun hc => by simp at hc, ?_⟩
        show o = outOf true (t + 1)
        rw [hout]
        simp only [outOf, Bool.true_and]
        exact decide_eq_decide.mpr (by omega)
      · by_cases hlt3 : t < 3000
        · have h1 : 1000 ≤ t := by omega
          rw [blink_off t o h1 hlt3]
          refine ⟨show (0 : Int) ≤ t + 1 by omega, show t + 1 ≤ 3000 by omega,
            fun hc => by simp at hc, ?_⟩
          show false = outOf true (t + 1)
          simp only [outOf, Bool.true_and]
          exact (decide_eq_false (by omega)).symm
        · have h3 : 3000 ≤ t := by omega
          rw [blink_reset t o h3]
          refine ⟨le_refl 0, show (0 : Int) ≤ 3000 by norm_num,
            fun hc => by simp at hc, ?_⟩
          show false = outOf true 0
          simp [outOf]

theorem inv_run (inp : Nat → Bool) (n : Nat) : Inv (run inp n) := by
  induction n with
  | zero => exact inv_init
  | succ n ih => exact inv_tick _ _ ih

theorem run_button_iff (inp : Nat → Bool) (n : Nat) :
    (run inp n).button = true ↔ ∃ k, 1 ≤ k ∧ k ≤ n ∧ inp k = false := by
  induction n with
  | zero =>
    constructor
    · intro h; exact absurd h (by simp [run, init])
    · rintro ⟨k, hk1, hk2, -⟩; omega
  | succ n ih =>
    rw [run_succ, tick_button]
    constructor
    · intro h
      rcases Bool.or_eq_true_iff.mp h with h | h
      · obtain ⟨k, hk1, hk2, hk3⟩ := ih.mp h
        exact ⟨k, hk1, by omega, hk3⟩
      · exact ⟨n + 1, by omega, le_refl _, by simpa using h⟩
    · rintro ⟨k, hk1, hk2, hk3⟩
      rcases Nat.lt_or_ge k (n + 1) with hlt | hge
      · have : (run inp n).button = true := ih.mpr ⟨k, hk1, by omega, hk3⟩
        simp [this]
      · have hk : k = n + 1 := by omega
        subst hk
        simp [hk3]

theorem run_button_mono (inp : Nat → Bool) (n m : Nat) (hnm : n ≤ m)
    (h : (run inp n).button = true) : (run inp m).button = true := by
  obtain ⟨k, hk1, hk2, hk3⟩ := (run_button_iff inp n).mp h
  exact (run_button_iff inp m).mpr ⟨k, hk1, by omega, hk3⟩

theorem runP_zero : runP 0 = init := rfl

theorem runP_on (n : Nat) (h1 : 1 ≤ n) (h2 : n ≤ 1000) :
    runP n = ⟨true, (n : Int), true⟩ := by
  induction n with
  | zero => omega
  | succ n ih =>
    by_cases hn : n = 0
    · subst hn; decide
    · have hn1 : 1 ≤ n := by omega
      rw [runP_succ, ih hn1 (by omega), tick_armed _ rfl false,
        blink_on _ _ (by omega) (by omega)]
      norm_cast

theorem runP_off (n : Nat) (h1 : 1001 ≤ n) (h2 : n ≤ 3000) :
    runP n = ⟨true, (n : Int), false⟩ := by
  induction n with
  | zero => omega
  | succ n ih =>
    by_cases hn : n = 1000
    · subst hn
      rw [runP_succ, runP_on 1000 (by norm_num) (by norm_num), tick_armed _ rfl false,
        blink_off _ _ (by omega) (by omega)]
      norm_cast
    · have hn1 : 1001 ≤ n := by omega
      rw [runP_succ, ih hn1 (by omega), tick_armed _ rfl false,
        blink_off _ _ (by omega) (by omega)]
      norm_cast

theorem runP_3001 : runP 3001 = ⟨true, 0, false⟩ := by
  rw [show (3001 : Nat) = 3000 + 1 by norm_num, runP_succ,
    runP_off 3000 (by norm_num) (by norm_num), tick_armed _ rfl false,
    blink_reset _ _ (by omega)]

theorem runP_3002 : runP 3002 = ⟨true, 1, true⟩ := by
  rw [show (3002 : Nat) = 3001 + 1 by norm_num, runP_succ, runP_3001,
    tick_armed _ rfl false, blink_t0 _ _ rfl]

theorem runP_period (n : Nat) (h : 1 ≤ n) : runP (n + 3001) = runP n := by
  induction n with
  | zero => omega
  | succ n ih =>
    by_cases hn : n = 0
    · subst hn
      rw [show (0 + 1 + 3001 : Nat) = 3002 by norm_num, runP_3002,
        show (0 + 1 : Nat) = 1 by norm_num, runP_on 1 (by norm_num) (by norm_num)]
      norm_num
    · have h1 : 1 ≤ n := by omega
      rw [show n + 1 + 3001 = (n + 3001) + 1 by omega, runP_succ, ih h1, runP_succ]

theorem scen_le (n : Nat) (h : n ≤ 50) : scen n = true := by simp [scen, h]

theorem scen_gt (n : Nat) (h : 50 < n) : scen n = false := by
  simp only [scen, decide_eq_false_iff_not]
  omega

theorem run_scen_pre (n : Nat) (h : n ≤ 50) : run scen n = init := by
  induction n with
  | zero => rfl
  | succ n ih =>
    rw [run_succ, ih (by omega), scen_le _ h, tick_unarmed_high _ rfl]

theorem run_scen_shift (k : Nat) : run scen (50 + k) = runP k := by
  induction k with
  | zero => simpa [runP_zero] using run_scen_pre 50 (le_refl _)
  | succ k ih =>
    rw [show 50 + (k + 1) = (50 + k) + 1 by omega, run_succ, ih,
      scen_gt _ (by omega), runP_succ]

theorem run_scen_51 : run scen 51 = ⟨true, 1, true⟩ := by
  rw [show (51 : Nat) = 50 + 1 by norm_num, run_scen_shift,
    runP_on 1 (by norm_num) (by norm_num)]
  norm_num

theorem run_scen_1051 : run scen 1051 = ⟨true, 1001, false⟩ := by
  rw [show (1051 : Nat) = 50 + 1001 by norm_num, run_scen_shift,
    runP_off 1001 (by norm_num) (by norm_num)]
  norm_num

theorem run_scen_3051 : run scen 3051 = ⟨true, 0, false⟩ := by
  rw [show (3051 : Nat) = 50 + 3001 by norm_num, run_scen_shift, runP_3001]

theorem run_scen_3052 : run scen 3052 = ⟨true, 1, true⟩ := by
  rw [show (3052 : Nat) = 50 + 3002 by norm_num, run_scen_shift, runP_3002]

theorem blink_boundary (s : S) (hb : s.button = true) (hi : Inv s) :
    ((s.out = true ∧ (blink s).out = false) ↔ s.t = 1000) ∧
    ((blink s).t = 0 ↔ s.t = 3000) := by
  obtain ⟨b, t, o⟩ := s
  simp only at hb
  subst hb
  obtain ⟨ht0, ht3, -, hout⟩ := hi
  simp only at ht0 ht3 hout
  by_cases h0 : t = 0
  · have ho : o = false := by rw [hout, h0]; simp [outOf]
    subst ho
    rw [blink_t0 t false h0]
    simp only [show ((⟨true, 1, true⟩ : S)).out = true from rfl,
      show ((⟨true, 1, true⟩ : S)).t = 1 from rfl]
    constructor
    · constructor
      · rintro ⟨hc, -⟩; simp at hc
      · intro hc; omega
    · constructor
      · intro hc; simp at hc
      · intro hc; omega
  · by_cases hlt : t < 1000
    · have h1 : 0 < t := by omega
      have ho : o = true := by
        rw [hout]; simp only [outOf, Bool.true_and]; exact decide_eq_true (by omega)
      subst ho
      rw [blink_on t true h1 hlt]
      simp only [show ((⟨true, t + 1, true⟩ : S)).out = true from rfl,
        show ((⟨true, t + 1, true⟩ : S)).t = t + 1 from rfl]
      constructor
      · constructor
        · rintro ⟨-, hc⟩; simp at hc
        · intro hc; omega
      · constructor
        · intro hc; omega
        · intro hc; omega
    · by_cases hlt3 : t < 3000
      · have h1 : 1000 ≤ t := by omega
        rw [blink_off t o h1 hlt3]
        simp only [show ((⟨true, t + 1, false⟩ : S)).out = false from rfl,
          show ((⟨true, t + 1, false⟩ : S)).t = t + 1 from rfl]
        constructor
        · constructor
          · rintro ⟨hc, -⟩
            rw [hout] at hc
            simp only [outOf, Bool.true_and, decide_eq_true_iff] at hc
            omega
          · intro hc
            refine ⟨?_, trivial⟩
            rw [hout]
            simp only [outOf, Bool.true_and]
            exact decide_eq_true (by omega)
        · constructor
          · intro hc; omega
          · intro hc; omega
      · have h3 : t = 3000 := by omega
        have ho : o = false := by
          rw [hout]; simp only [outOf, Bool.true_and]
          exact decide_eq_false (by omega)
        subst ho
        rw [blink_reset t false (by omega)]
        simp only [show ((⟨true, 0, false⟩ : S)).out = false from rfl,
          show ((⟨true, 0, false⟩ : S)).t = 0 from rfl]
        constructor
        · constructor
          · rintro ⟨hc, -⟩; simp at hc
          · intro hc; omega
        · constructor
          · intro _; omega
          · intro _; trivial

theorem blink_t_step (s : S) (hb : s.button = true) (h0 : 0 ≤ s.t) (h3 : s.t ≤ 3000) :
    (blink s).t = if s.t = 3000 then 0 else s.t + 1 := by
  obtain ⟨b, t, o⟩ := s
  simp only at hb
  subst hb
  simp only at h0 h3 ⊢
  by_cases ht : t = 3000
  · rw [ht, blink_reset 3000 o (le_refl _), if_pos rfl]
  · rw [if_neg ht]
    by_cases h00 : t = 0
    · rw [blink_t0 t o h00, h00]
      norm_num
    · by_cases hlt : t < 1000
      · rw [blink_on t o (by omega) hlt]
      · rw [blink_off t o (by omega) (by omega)]

theorem run_eq_of_agree (inp1 inp2 : Nat → Bool) (m : Nat)
    (hag : ∀ k, 1 ≤ k → k ≤ m → inp1 k = inp2 k) :
    ∀ n, n ≤ m → run inp1 n = run inp2 n := by
  intro n
  induction n with
  | zero => intro _; rfl
  | succ n ih =>
    intro hn
    rw [run_succ, run_succ, ih (by omega), hag (n + 1) (by omega) hn]

theorem run_armed_congr (inp1 inp2 : Nat → Bool) (m : Nat)
    (heq : run inp1 m = run inp2 m) (hb : (run inp1 m).button = true) :
    ∀ k, run inp1 (m + k) = run inp2 (m + k) := by
  intro k
  induction k with
  | zero => exact heq
  | succ k ih =>
    rw [show m + (k + 1) = (m + k) + 1 by omega, run_succ, run_succ, ih]
    have hb2 : (run inp2 (m + k)).button = true := by
      rw [← ih]
      exact run_button_mono inp1 m (m + k) (by omega) hb
    exact tick_armed_input_irrelevant _ hb2 _ _

/-- Claim C1, counterexample: the claim numbers ticks from 1 at the first
armed evaluation and asserts OutputLine is OFF at tick 1000 and, in the
scenario run, ON again at tick 3051.  The code disagrees at both concrete
points: after armed tick 1000 the output is still ON (it is switched off
on the tick evaluated with t = 1000, which is tick 1001), and in the
scenario run the output at tick 3051 is OFF (tick 3051 is the reset tick;
the pulse recurs at tick 3052). -/
theorem C1_cex : (runP 1000).out = true ∧ (run scen 3051).out = false := by
  constructor
  · rw [runP_on 1000 (by norm_num) (by norm_num)]
  · rw [run_scen_3051]

/-- Claim C1, amended: armed with t = 0 and ticks numbered from 1 at the
first armed evaluation, OutputLine is ON after tick 1 and remains ON
through tick 1000, becomes OFF at tick 1001 and remains OFF through tick
3001; on tick 3001 t resets to 0 and the ON pulse recurs at tick 3002.
For the input stream reading unasserted for ticks 1-50 and asserted from
tick 51 on, the state is unchanged (output off) for ticks 1-50, ON at
tick 51, OFF at tick 1051, and ON again at tick 3052. -/
theorem C1_blink_pattern (n : Nat) :
    (1 ≤ n → n ≤ 1000 → (runP n).out = true) ∧
    (1001 ≤ n → n ≤ 3001 → (runP n).out = false) ∧
    (runP 3001).t = 0 ∧ (runP 3002).out = true ∧
    (n ≤ 50 → run scen n = init) ∧
    (run scen 51).out = true ∧ (run scen 1051).out = false ∧
    (run scen 3052).out = true := by
  refine ⟨?_, ?_, ?_, ?_, ?_, ?_, ?_, ?_⟩
  · intro h1 h2
    rw [runP_on n h1 h2]
  · intro h1 h2
    by_cases h3 : n ≤ 3000
    · rw [runP_off n h1 h3]
    · rw [show n = 3001 by omega, runP_3001]
  · rw [runP_3001]
  · rw [runP_3002]
  · exact run_scen_pre n
  · rw [run_scen_51]
  · rw [run_scen_1051]
  · rw [run_scen_3052]

/-- Claim C1 witness: the amended pattern instantiated at concrete ticks. -/
theorem C1_blink_pattern_witness :
    (runP 1000).out = true ∧ (runP 3001).out = false ∧ run scen 50 = init :=
  ⟨(C1_blink_pattern 1000).1 (by norm_num) (by norm_num),
   (C1_blink_pattern 3001).2.1 (by norm_num) (by norm_num),
   (C1_blink_pattern 50).2.2.2.2.1 (by norm_num)⟩

/-- Claim C2, counterexample: the cycle period claimed is exactly 3000
ticks, so the armed output at tick 1 + 3000 would repeat the armed output
at tick 1; in the code the output at armed tick 1 is ON while at tick
3001 it is OFF (the reset tick consumes one extra evaluation without
counting, so the true period is 3001 ticks). -/
theorem C2_cex : (runP 1).out = true ∧ (runP (1 + 3000)).out = false := by
  constructor
  · rw [runP_on 1 (by norm_num) (by norm_num)]
  · rw [show (1 + 3000 : Nat) = 3001 by norm_num, runP_3001]

/-- Claim C2, amended: once armed, the cycle period is exactly 3001 ticks
(1 ON-edge tick, 999 ticks held ON, 2000 ticks held OFF, plus the reset
tick which does not count), independent of the number of elapsed cycles:
the full state at armed tick n + 3001 equals the state at armed tick n,
so cycle N+1 produces a tick-by-tick OutputLine sequence identical to
cycle N. -/
theorem C2_period (n : Nat) (h : 1 ≤ n) : runP (n + 3001) = runP n :=
  runP_period n h

/-- Claim C2 witness: periodicity instantiated at the first armed tick. -/
theorem C2_period_witness : runP (1 + 3001) = runP 1 :=
  C2_period 1 (le_refl 1)

/-- Claim C3: in every state reachable under any tick sequence, OutputLine
equals the fixed pure function `outOf` of the pair (InputLatch,
ElapsedMillis) induced by the transition table; no other mutable state
influences it. -/
theorem C3_output_pure (inp : Nat → Bool) (n : Nat) :
    (run inp n).out = outOf (run inp n).button (run inp n).t :=
  (inv_run inp n).2.2.2

/-- Claim C4: in every armed execution, the ON-to-OFF transition happens
on exactly the tick evaluated with t = 1000 (that is, tick n+1 turns the
output from ON to OFF exactly when the state it is evaluated on has
t = 1000), and the cycle reset to t = 0 happens on exactly the tick
evaluated with t = 3000 — neither one tick early nor one tick late. -/
theorem C4_boundary (inp : Nat → Bool) (n : Nat)
    (h : (run inp n).button = true) :
    (((run inp n).out = true ∧ (run inp (n + 1)).out = false) ↔
      (run inp n).t = 1000) ∧
    ((run inp (n + 1)).t = 0 ↔ (run inp n).t = 3000) := by
  have hstep : run inp (n + 1) = blink (run inp n) := by
    rw [run_succ, tick_armed _ h]
  rw [hstep]
  exact blink_boundary (run inp n) h (inv_run inp n)

/-- Claim C4 witness: the boundary characterization instantiated on the
all-pressed stream at tick 5. -/
theorem C4_boundary_witness :
    (((run press 5).out = true ∧ (run press (5 + 1)).out = false) ↔
      (run press 5).t = 1000) ∧
    ((run press (5 + 1)).t = 0 ↔ (run press 5).t = 3000) :=
  C4_boundary press 5 (by decide)

/-- Claim C5: InputLatch transitions at most once, from false to true, and
is never reset: the latch is set after n ticks exactly when some tick up
to n sampled the line low (pressed), and once set it remains set in every
later reachable state — no cancellation path exists. -/
theorem C5_latch_once (inp : Nat → Bool) (n m : Nat) :
    ((run inp n).button = true ↔ ∃ k, 1 ≤ k ∧ k ≤ n ∧ inp k = false) ∧
    (n ≤ m → (run inp n).button = true → (run inp m).button = true) :=
  ⟨run_button_iff inp n, fun h1 h2 => run_button_mono inp n m h1 h2⟩

/-- Claim C5 witness: latch behaviour on the all-pressed stream at
ticks 1 and 2. -/
theorem C5_latch_once_witness :
    ((run press 1).button = true ↔ ∃ k, 1 ≤ k ∧ k ≤ 1 ∧ press k = false) ∧
    (run press 2).button = true :=
  ⟨(C5_latch_once press 1 2).1,
   (C5_latch_once press 1 2).2 (by norm_num) (by decide)⟩

/-- Claim C6: if two input streams agree up to and including a tick m at
which the first run is armed, then however the streams differ afterwards
the OutputLine sequences of the two runs are identical at every tick;
after InputLatch becomes true, the input line is never consulted again. -/
theorem C6_noninterference (inp1 inp2 : Nat → Bool) (m : Nat)
    (hag : ∀ k, 1 ≤ k → k ≤ m → inp1 k = inp2 k)
    (hb : (run inp1 m).button = true) (n : Nat) :
    (run inp1 n).out = (run inp2 n).out := by
  rcases le_or_lt n m with hn | hn
  · rw [run_eq_of_agree inp1 inp2 m hag n hn]
  · have heq := run_eq_of_agree inp1 inp2 m hag m (le_refl m)
    have harm := run_armed_congr inp1 inp2 m heq hb (n - m)
    rw [show m + (n - m) = n by omega] at harm
    rw [harm]

/-- Claim C6 witness: the all-pressed stream against a stream that differs
from it at tick 2, agreeing up to the arming tick 1; outputs agree at
tick 3. -/
theorem C6_noninterference_witness :
    (run press 3).out = (run (fun k => decide (k = 2)) 3).out :=
  C6_noninterference press (fun k => decide (k = 2)) 1
    (fun k hk1 hk2 => by
      have : k = 1 := by omega
      subst this
      rfl)
    (by decide) 3

/-- Claim C7: while InputLatch is false the state is pinned at its initial
value — in any reachable state with the latch still false, ElapsedMillis
is 0 and OutputLine is off (unchanged) — and a tick evaluated on an
unarmed state with the line reading high changes nothing at all. -/
theorem C7_unarmed_frame (inp : Nat → Bool) (n : Nat) :
    ((run inp n).button = false → (run inp n).t = 0 ∧ (run inp n).out = false) ∧
    ((run inp n).button = false → inp (n + 1) = true →
      run inp (n + 1) = run inp n) := by
  constructor
  · exact (inv_run inp n).2.2.1
  · intro h1 h2
    rw [run_succ, h2, tick_unarmed_high _ h1]

/-- Claim C7 witness: the never-pressed stream after 5 ticks. -/
theorem C7_unarmed_frame_witness :
    ((run (fun _ => true) 5).t = 0 ∧ (run (fun _ => true) 5).out = false) ∧
    run (fun _ => true) 6 = run (fun _ => true) 5 :=
  ⟨(C7_unarmed_frame (fun _ => true) 5).1 (by decide),
   (C7_unarmed_frame (fun _ => true) 5).2 (by decide) rfl⟩

/-- Claim C8, counterexample: the claim asserts ElapsedMillis stays in
[0, 3000) and is incremented exactly once per armed tick; but the state
after 3000 all-pressed ticks is armed with t = 3000 (outside the claimed
range), and on the next tick t is not incremented but reset to 0. -/
theorem C8_cex :
    (runP 3000).button = true ∧ ¬ ((runP 3000).t < 3000) ∧
      (runP 3001).t ≠ (runP 3000).t + 1 := by
  rw [runP_3001, runP_off 3000 (by norm_num) (by norm_num)]
  norm_num

/-- Claim C8, amended: in every reachable state ElapsedMillis lies in
[0, 3000] (reaching exactly 3000 on the tick before the wrap), and while
InputLatch is true it advances deterministically once per tick: it is
incremented by one, except on the tick evaluated with t = 3000 where it
wraps to 0. -/
theorem C8_counter_range (inp : Nat → Bool) (n : Nat) :
    (0 ≤ (run inp n).t ∧ (run inp n).t ≤ 3000) ∧
    ((run inp n).button = true →
      (run inp (n + 1)).t =
        if (run inp n).t = 3000 then 0 else (run inp n).t + 1) := by
  have hinv := inv_run inp n
  refine ⟨⟨hinv.1, hinv.2.1⟩, ?_⟩
  intro h
  rw [run_succ, tick_armed _ h]
  exact blink_t_step (run inp n) h hinv.1 hinv.2.1

/-- Claim C8 witness: the counter step on the all-pressed stream at
tick 5. -/
theorem C8_counter_range_witness :
    (0 ≤ (run press 5).t ∧ (run press 5).t ≤ 3000) ∧
    (run press 6).t = if (run press 5).t = 3000 then 0 else (run press 5).t + 1 :=
  ⟨(C8_counter_range press 5).1, (C8_counter_range press 5).2 (by decide)⟩

/-- Claim C9: a tick evaluated on an unarmed state samples the line with
inverted logic — a high reading (logical 1, not pressed) leaves the whole
state unchanged, and a low reading (logical 0, pressed) arms the latch. -/
theorem C9_input_sampling (s : S) (i : Bool) (h : s.button = false) :
    (i = true → tick s i = s) ∧ (i = false → (tick s i).button = true) := by
  constructor
  · intro hi
    subst hi
    exact tick_unarmed_high s h
  · intro hi
    subst hi
    rw [tick_button, h]
    rfl

/-- Claim C9 witness: both readings evaluated on the initial state. -/
theorem C9_input_sampling_witness :
    tick init true = init ∧ (tick init false).button = true :=
  ⟨(C9_input_sampling init true rfl).1 rfl,
   (C9_input_sampling init false rfl).2 rfl⟩

/-- Claim C10: at every loop-iteration boundary 0 ≤ t ≤ 3000 holds (in
particular t never exceeds 3000, far below the 16-bit INT_MAX 32767, so
the `int` counter cannot overflow), and the final else branch — reached
on an armed tick when none of the guards t = 0, 0 < t < 1000,
1000 ≤ t < 3000 holds — is only ever entered with t exactly 3000. -/
theorem C10_else_guard (inp : Nat → Bool) (n : Nat) :
    (0 ≤ (run inp n).t ∧ (run inp n).t ≤ 3000 ∧ (run inp n).t < 32767) ∧
    ((run inp n).button = true → ¬ ((run inp n).t = 0) →
      ¬ (0 < (run inp n).t ∧ (run inp n).t < 1000) →
      ¬ (1000 ≤ (run inp n).t ∧ (run inp n).t < 3000) →
      (run inp n).t = 3000) := by
  have hinv := inv_run inp n
  refine ⟨⟨hinv.1, hinv.2.1, by have h := hinv.2.1; omega⟩, ?_⟩
  intro _ h0 h1 h2
  have ha := hinv.1
  have hb := hinv.2.1
  omega

/-- Claim C10 witness: the invariant and the else-branch guard at the
reachable armed state with t = 3000, after 3000 all-pressed ticks. -/
theorem C10_else_guard_witness :
    (0 ≤ (runP 3000).t ∧ (runP 3000).t ≤ 3000 ∧ (runP 3000).t < 32767) ∧
      (runP 3000).t = 3000 :=
  ⟨(C10_else_guard press 3000).1,
   (C10_else_guard press 3000).2
    (by show (runP 3000).button = true
        rw [runP_off 3000 (by norm_num) (by norm_num)])
    (by show ¬ ((runP 3000).t = 0)
        rw [runP_off 3000 (by norm_num) (by norm_num)]; norm_num)
    (by show ¬ (0 < (runP 3000).t ∧ (runP 3000).t < 1000)
        rw [runP_off 3000 (by norm_num) (by norm_num)]; norm_num)
    (by show ¬ (1000 ≤ (runP 3000).t ∧ (runP 3000).t < 3000)
        rw [runP_off 3000 (by norm_num) (by norm_num)]; norm_num)⟩

end Blink
